import Mathlib

/-!
# GGSORE attendance PWA — verification of the attendance core

Shallow embedding of the session time-window and attendance state-transition
logic of the GGSORE attendance single-page application.

Conventions of the embedding:
* Instants (`Date` values, ISO timestamp strings) are modelled as `Int`
  milliseconds since the Unix epoch, exactly the value `new Date(iso).getTime()`
  computes in the source; `Date.now()` becomes an explicit `now : Int` argument.
* JavaScript `string` values stay `String`; `undefined`/`null`-able fields
  become `Option`; JavaScript truthiness of a possibly-absent string
  (`if (!x)`) is `strTruthy`, and `a || b` on strings is `jsOrStr`.
* The React state setters (`setAttendance`, `setRoster`, `setStatus`) become
  explicit state passing: each operation returns the final status string and
  the final state.  In `part_003`, `submitScan` may call `setAttendance` twice
  in one invocation (inside `upsertAttendance` and `updateAttendance`); React
  batches these so the later write wins, and because `updateAttendance`
  captures the pre-call array, its net effect on the paths where it runs is to
  place the updated record at the index `upsertAttendance` reported.  The
  sequential state-passing below produces exactly the same final list on every
  path, which is what we model.
* Supabase reads (`select … maybeSingle`) are lookups in the attendance list;
  `upsert … onConflict session_id,trec_license` replaces the row with the same
  composite key or appends; error returns of the backend are not modelled
  (the happy path of the collaborator is assumed).

Sources: `src/src/App.tsx` (namespace `App`), `src/unnamed/part_003`
(namespace `P3`), `src/unnamed/part_004` (namespace `P4`).
-/

/-- JavaScript truthiness of a possibly-absent string: `undefined`, `null`
and `""` are falsy. -/
def strTruthy : Option String → Bool
  | none => false
  | some s => s ≠ ""

/-- JavaScript `a || b` for a possibly-absent string `a` and a string `b`. -/
def jsOrStr (a : Option String) (b : String) : String :=
  match a with
  | some s => if s = "" then b else s
  | none => b

/-- JavaScript `a || b` on two possibly-absent strings
(`actionOverride || payload?.action`). -/
def jsOrOpt (a b : Option String) : Option String :=
  if strTruthy a then a else b

/-- `normalizeLicense` (identical in `App.tsx` line 78 and `part_003` line 544):
`raw.trim().toUpperCase().replace(/\s+/g, "")`.  Uppercase every character and
drop every whitespace character; the leading `trim()` only removes whitespace,
which the global `replace` removes anyway, and `toUpperCase` never maps a
character into or out of the whitespace class, so the composite is the map
followed by the filter. -/
def normalizeLicense (v : String) : String :=
  String.mk ((v.data.map Char.toUpper).filter (fun c => !c.isWhitespace))

/-- The TREC license regex `/^\d{6,7}-(SA|B|BB)$/` (case-sensitive form):
6 or 7 digits, then `-SA`, `-B` or `-BB`, nothing else. -/
def licMatch (v : String) : Bool :=
  let cs := v.data
  let ds := cs.takeWhile Char.isDigit
  let rest := cs.drop ds.length
  (ds.length == 6 || ds.length == 7) &&
    (rest == ['-', 'S', 'A'] || rest == ['-', 'B'] || rest == ['-', 'B', 'B'])

/-- Case-insensitive match (the `/i` flag): match after uppercasing. -/
def licMatchCI (v : String) : Bool :=
  licMatch (String.mk (v.data.map Char.toUpper))

/-- `isExpired` (`App.tsx` line 156, `part_003` line 699):
`Date.now() > new Date(expiresAt).getTime()`. -/
def isExpired (now expiresAt : Int) : Bool :=
  expiresAt < now

/-- Milliseconds in `n` minutes, for stating the window claims. -/
def minutes (n : Int) : Int :=
  n * 60 * 1000

/-- Check-in / check-out method tag. -/
inductive Method where
  | scan
  | manual
deriving DecidableEq, Repr

/-- A parsed QR payload.  `JSON.parse` of the scanned text yields a value
whose fields are read by optional chaining, so every field may be absent. -/
structure Payload where
  action : Option String := none
  sessionId : Option String := none
  code : Option String := none
  expiresAt : Option Int := none
deriving DecidableEq, Repr

/-- A class session (`Session` type of `App.tsx` / `part_003`); ISO instants
are modelled as epoch milliseconds. -/
structure Session where
  id : String
  title : String := ""
  startsAt : Int
  endsAt : Int
  checkinExpiresAt : Int := 0
  checkoutExpiresAt : Int := 0
  checkinCode : String
  checkoutCode : String
deriving DecidableEq, Repr

/-- An attendance record (`Attendance` type of `part_003`, `gg_attendance`
row of `App.tsx`). -/
structure Attendance where
  session_id : String
  trec_license : String
  checkin_at : Option Int := none
  checkout_at : Option Int := none
  method_checkin : Option Method := none
  method_checkout : Option Method := none
  notes : Option String := none
deriving DecidableEq, Repr

/-- The four window boundaries computed at session creation. -/
structure Windows where
  checkinOpensAt : Int
  checkinClosesAt : Int
  checkoutOpensAt : Int
  checkoutClosesAt : Int
deriving DecidableEq, Repr

/-- The window computation of `createSessionInSupabase` (`App.tsx` 448–458):
the precondition `endMs > startMs` is checked first (`"End time must be after
start time."` otherwise) and then the four boundaries are derived.  The same
four formulas are recomputed inline by `submitScan` (`App.tsx` 525–536). -/
def computeWindows (startMs endMs : Int) : Except String Windows :=
  if endMs > startMs then
    .ok { checkinOpensAt := startMs - 30 * 60 * 1000
          checkinClosesAt := startMs + 30 * 60 * 1000
          checkoutOpensAt := endMs - 60 * 60 * 1000
          checkoutClosesAt := endMs + 60 * 60 * 1000 }
  else
    .error "End time must be after start time."

/-- `isValidLicense` of `App.tsx` (line 81): `/^\d{6,7}-(SA|B|BB)$/i.test(v)`
without prior normalization (call sites normalize first). -/
def App.isValidLicense (v : String) : Bool :=
  licMatchCI v

/-- `isValidLicense` of `part_003` (line 547): normalize, then test the
case-sensitive regex. -/
def P3.isValidLicense (raw : String) : Bool :=
  licMatch (normalizeLicense raw)

/-- `upsert` on `gg_attendance` with `onConflict: "session_id,trec_license"`:
replace the row with the same composite key, else append. -/
def upsertRow (att : List Attendance) (r : Attendance) : List Attendance :=
  if att.any (fun a => a.session_id == r.session_id && a.trec_license == r.trec_license) then
    att.map (fun a =>
      if a.session_id == r.session_id && a.trec_license == r.trec_license then r else a)
  else
    att ++ [r]

/-- The scan-only validation block of `App.tsx` `submitScan` (lines 522–546):
code/expiry presence, the four window comparisons (recomputing the same
`±30`/`±60` minute offsets as session creation) and the payload-expiry test,
in source order; `none` = no rejection.  The whole block sits under
`if (!actionOverride)`, so a truthy override bypasses it. -/
def App.scanGate (sess : Session) (actionOverride action code : Option String)
    (expiresAt : Option Int) (now : Int) : Option String :=
  if strTruthy actionOverride then none
  else if !strTruthy code || expiresAt = none then some "Invalid QR format."
  else
    let startMs := sess.startsAt
    let endMs := sess.endsAt
    let checkinOpensMs := startMs - 30 * 60 * 1000
    let checkinClosesMs := startMs + 30 * 60 * 1000
    let checkoutOpensMs := endMs - 60 * 60 * 1000
    let checkoutClosesMs := endMs + 60 * 60 * 1000
    if action = some "checkin" ∧ now < checkinOpensMs then
      some "Check-in is not open yet."
    else if action = some "checkin" ∧ now > checkinClosesMs then
      some "Check-in has closed for today."
    else if action = some "checkout" ∧ now < checkoutOpensMs then
      some "Check-out is not open yet."
    else if action = some "checkout" ∧ now > checkoutClosesMs then
      some "Check-out has closed for today."
    else if isExpired now (expiresAt.getD 0) then
      some "That code has expired for today."
    else none

/-- The state transition of `App.tsx` `submitScan` (lines 550–593): the
`select … maybeSingle` lookup, the `baseRow` default, and the
check-in / check-out branches with their `upsert`; an unrecognized truthy
action falls off the end of the function with the status still `""`. -/
def App.applyTransition (attendance : List Attendance) (sess : Session)
    (studentLicense : String) (action : Option String) (method : Method) (now : Int) :
    String × List Attendance :=
  let existing := attendance.find? (fun a =>
    a.session_id == sess.id && a.trec_license == studentLicense)
  let baseRow := existing.getD { session_id := sess.id, trec_license := studentLicense }
  if action = some "checkin" then
    if baseRow.checkin_at.isSome then ("Already checked in.", attendance)
    else
      ((if method = .manual then "Manual check-in recorded." else "Checked in. Welcome!"),
       upsertRow attendance
         { baseRow with checkin_at := some now, method_checkin := some method })
  else if action = some "checkout" then
    if baseRow.checkin_at = none then ("Check-in required before check-out.", attendance)
    else if baseRow.checkout_at.isSome then ("Already checked out.", attendance)
    else
      ((if method = .manual then "Manual check-out recorded." else "Checked out. Thank you!"),
       upsertRow attendance
         { baseRow with checkout_at := some now, method_checkout := some method })
  else ("", attendance)

/-- `App.tsx` `submitScan` from the extracted `action`/`sessionId`/`code`/
`expiresAt` values onwards (lines 519–593): the wrong-session check, the
truthy-action check, the scan-only gate, then the transition. -/
def App.afterParse (attendance : List Attendance) (sess : Session)
    (studentLicense : String) (method : Method)
    (actionOverride action sessionId code : Option String)
    (expiresAt : Option Int) (now : Int) : String × List Attendance :=
  if sessionId ≠ some sess.id then
    ("That code is for a different class session.", attendance)
  else if !strTruthy action then ("Invalid QR format.", attendance)
  else
    match App.scanGate sess actionOverride action code expiresAt now with
    | some msg => (msg, attendance)
    | none => App.applyTransition attendance sess studentLicense action method now

/-- `submitScan` of `App.tsx` (lines 487–594).  Returns the final status
message (`""` when the function runs to its end without calling `setStatus`
again, which happens for an unrecognized truthy action) and the final
`gg_attendance` state.  The extraction of `action`/`sessionId`/`code`/
`expiresAt` (lines 502–517) leaves `sessionId = activeSession.id` and skips
the payload parse when `actionOverride` is truthy. -/
def App.submitScan (attendance : List Attendance) (supabaseConnected authed : Bool)
    (activeSession : Option Session) (headshotPath : Option String)
    (licenseInput : String) (scanText : Option Payload)
    (method : Method) (actionOverride : Option String) (now : Int) :
    String × List Attendance :=
  if !supabaseConnected then ("Supabase is not connected.", attendance)
  else
    match activeSession with
    | none => ("No active session selected.", attendance)
    | some sess =>
      if !authed then ("Please log in first.", attendance)
      else if !strTruthy headshotPath then
        ("Headshot required. Please upload your photo before checking in/out.", attendance)
      else
        let studentLicense := normalizeLicense licenseInput
        if !App.isValidLicense studentLicense then
          ("Enter full TREC license like 123456-SA (suffix: -SA, -B, or -BB).", attendance)
        else if strTruthy actionOverride then
          App.afterParse attendance sess studentLicense method
            actionOverride actionOverride (some sess.id) none none now
        else
          match scanText with
          | none => ("Invalid QR data. If scanning fails, paste the QR token text.", attendance)
          | some p =>
            App.afterParse attendance sess studentLicense method
              actionOverride p.action p.sessionId p.code p.expiresAt now

/-- A roster row of `part_003` (`RosterRow` type, line 570); only the
normalized `trec_license` is read by the membership test. -/
structure P3.RosterRow where
  trec_license : String
  first_name : Option String := none
  last_name : Option String := none
deriving DecidableEq, Repr

/-- `rosterContains` of `part_003` (line 960): membership of the normalized
license among the roster rows' stored licenses. -/
def P3.rosterContains (roster : List P3.RosterRow) (licenseRaw : String) : Bool :=
  roster.any (fun r => r.trec_license == normalizeLicense licenseRaw)

/-- `attendance.findIndex(a => a.session_id === sessionId && a.trec_license === lic)`
together with the element found, as a single recursive lookup. -/
def P3.findWithIndex (sessionId lic : String) : List Attendance → Option (Attendance × Nat)
  | [] => none
  | a :: rest =>
    if a.session_id == sessionId && a.trec_license == lic then some (a, 0)
    else (P3.findWithIndex sessionId lic rest).map (fun x => (x.1, x.2 + 1))

/-- `upsertAttendance` of `part_003` (line 965): return the existing record
and its index, or append a blank record `{session_id, trec_license}` and
return it with its index; the third component is the attendance state after
the call. -/
def P3.upsertAttendance (attendance : List Attendance) (sessionId trecLicenseRaw : String) :
    Attendance × Nat × List Attendance :=
  let lic := normalizeLicense trecLicenseRaw
  match P3.findWithIndex sessionId lic attendance with
  | some (a, idx) => (a, idx, attendance)
  | none =>
    let r0 : Attendance := { session_id := sessionId, trec_license := lic }
    (r0, attendance.length, attendance ++ [r0])

/-- `updateAttendance` of `part_003` (line 975): write `r` at index `idx`. -/
def P3.updateAttendance (attendance : List Attendance) (idx : Nat) (r : Attendance) :
    List Attendance :=
  attendance.set idx r

/-- Stand-in for `new Date(t).toLocaleTimeString()` in the two
`Already checked …` messages of `part_003`: an injective rendering of the
timestamp (the source string is locale- and timezone-dependent). -/
def timeStr (t : Option Int) : String :=
  toString (t.getD 0)

/-- The scan-only validation block of `part_003` `submitScan` (lines
1023–1028): code/expiry presence, the payload-expiry test, then the
code-equality tests, in source order; `none` = no rejection.  The block sits
under `if (method === "scan")`. -/
def P3.scanGate (sess : Session) (method : Method) (action code : Option String)
    (expiresAt : Option Int) (now : Int) : Option String :=
  if method ≠ .scan then none
  else if !strTruthy code || expiresAt = none then some "Invalid QR format."
  else if isExpired now (expiresAt.getD 0) then some "That code has expired for today."
  else if action = some "checkin" ∧ code ≠ some sess.checkinCode then
    some "Invalid check-in code."
  else if action = some "checkout" ∧ code ≠ some sess.checkoutCode then
    some "Invalid check-out code."
  else none

/-- The state transition of `part_003` `submitScan` (lines 1031–1047):
`upsertAttendance` (which already appends a blank record when the pair has
none), then the check-in / check-out / unknown-action branches writing
through `updateAttendance`. -/
def P3.applyTransition (attendance : List Attendance) (sess : Session)
    (studentLicense : String) (action : Option String) (method : Method) (now : Int) :
    String × List Attendance :=
  let found := P3.upsertAttendance attendance sess.id studentLicense
  let r0 := found.1
  let idx := found.2.1
  let att1 := found.2.2
  if action = some "checkin" then
    if r0.checkin_at.isSome then
      ("Already checked in (" ++ timeStr r0.checkin_at ++ ").", att1)
    else
      ((if method = .manual then "Manual check-in recorded." else "Checked in. Welcome!"),
       P3.updateAttendance att1 idx
         { r0 with checkin_at := some now, method_checkin := some method })
  else if action = some "checkout" then
    if r0.checkin_at = none then ("Check-in required before check-out.", att1)
    else if r0.checkout_at.isSome then
      ("Already checked out (" ++ timeStr r0.checkout_at ++ ").", att1)
    else
      ((if method = .manual then "Manual check-out recorded." else "Checked out. Thank you!"),
       P3.updateAttendance att1 idx
         { r0 with checkout_at := some now, method_checkout := some method })
  else ("Unknown action.", att1)

/-- `part_003` `submitScan` from the extracted `action`/`sessionId`/`code`/
`expiresAt` values onwards (lines 1019–1047): the wrong-session check, the
truthy-action check, the scan-only gate, then the transition. -/
def P3.afterParse (attendance : List Attendance) (sess : Session)
    (studentLicense : String) (method : Method) (action : Option String)
    (sessionId : String) (code : Option String) (expiresAt : Option Int) (now : Int) :
    String × List Attendance :=
  if sessionId ≠ sess.id then ("That code is for a different class session.", attendance)
  else if !strTruthy action then ("Invalid QR format.", attendance)
  else
    match P3.scanGate sess method action code expiresAt now with
    | some msg => (msg, attendance)
    | none => P3.applyTransition attendance sess studentLicense action method now

/-- `submitScan` of `part_003` (lines 981–1048).  Returns the final status
message and the final attendance state.  `action = actionOverride ||
payload?.action` and `sessionId = payload?.sessionId || activeSession.id`
(lines 1014–1017); the payload is parsed only when `actionOverride` is
falsy, and a parse failure returns at once. -/
def P3.submitScan (attendance : List Attendance) (roster : List P3.RosterRow)
    (authed : Bool) (activeSession : Option Session)
    (licenseInput : String) (scanText : Option Payload)
    (method : Method) (actionOverride licenseOverride : Option String) (now : Int) :
    String × List Attendance :=
  match activeSession with
  | none => ("No active session selected.", attendance)
  | some sess =>
    let studentLicense := normalizeLicense (jsOrStr licenseOverride licenseInput)
    if !P3.isValidLicense studentLicense then
      ("Enter full TREC license number like 123456-SA (suffix required: -SA, -B, or -BB).",
       attendance)
    else if method = .scan ∧ !authed then ("Please log in first.", attendance)
    else if method = .scan ∧ !P3.rosterContains roster studentLicense then
      ("That TREC license number is not on the paid roster for this class session.", attendance)
    else if strTruthy actionOverride then
      -- payload stays null: action = actionOverride, sessionId defaults
      P3.afterParse attendance sess studentLicense method actionOverride sess.id none none now
    else
      match scanText with
      | none => ("Invalid QR data. If scanning fails, paste the QR token text.", attendance)
      | some p =>
        P3.afterParse attendance sess studentLicense method
          (jsOrOpt actionOverride p.action) (jsOrStr p.sessionId sess.id) p.code p.expiresAt now

/-- A `gg_roster` row of `part_004` (`AttendanceRow` type, line 5): in this
variant the attendance timestamps live on the roster row itself. -/
structure P4.AttendanceRow where
  session_id : String
  trec_license : String
  first_name : String := ""
  last_name : String := ""
  checkin_at : Option Int := none
  checkout_at : Option Int := none
  absent : Option Bool := none
  note : Option String := none
deriving DecidableEq, Repr

/-- A patch as passed to `patchRoster` (a subset of the row's fields; an
outer `some` means the field is present in the patch object, and its value —
possibly `none` = SQL `null` — overwrites the row's field). -/
structure P4.RowPatch where
  checkin_at : Option (Option Int) := none
  checkout_at : Option (Option Int) := none
  absent : Option Bool := none
  note : Option (Option String) := none
deriving DecidableEq, Repr

/-- The JavaScript spread `{ ...r, ...patch }`: fields present in the patch
overwrite the row's fields. -/
def P4.applyPatch (r : P4.AttendanceRow) (p : P4.RowPatch) : P4.AttendanceRow :=
  { r with
    checkin_at := p.checkin_at.getD r.checkin_at
    checkout_at := p.checkout_at.getD r.checkout_at
    absent := match p.absent with | some b => some b | none => r.absent
    note := p.note.getD r.note }

/-- `patchRoster` of `part_004` (line 454): admin-gated update of the roster
row keyed by the active session and the normalized license (the Supabase
`update` and the local `setRoster` map apply the same patch; the backend
error path is not modelled).  Returns the status and the new roster. -/
def P4.patchRoster (isAdmin : Bool) (activeSessionId : Option String)
    (roster : List P4.AttendanceRow) (license : String) (patch : P4.RowPatch) :
    String × List P4.AttendanceRow :=
  if !isAdmin then ("Admin access required.", roster)
  else
    match activeSessionId with
    | none => ("Select a session first.", roster)
    | some sid =>
      let lic := normalizeLicense license
      ("", roster.map (fun r =>
        if r.session_id == sid && normalizeLicense r.trec_license == lic then
          P4.applyPatch r patch
        else r))

/-- The §8 scenario session: `startsAt = 2026-02-01T09:00:00Z`
(= 1769936400000 ms), `endsAt = 2026-02-01T17:00:00Z` (= 1769965200000 ms),
so check-in is open 08:30:00Z–09:30:00Z and check-out 16:00:00Z–18:00:00Z. -/
def scenarioSession : Session where
  id := "s1"
  startsAt := 1769936400000
  endsAt := 1769965200000
  checkinCode := "QRIN"
  checkoutCode := "QROUT"

/-- A well-formed check-in payload for `scenarioSession` whose expiry
(2026-02-02T02:40:00Z) is far in the future. -/
def scenarioCheckinPayload : Payload where
  action := some "checkin"
  sessionId := some "s1"
  code := some "QRIN"
  expiresAt := some 1770000000000

/-- The attendance record produced by a successful scan check-in of student
`123456-SA` into `scenarioSession` at instant `t`. -/
def scanCheckinRecord (t : Int) : Attendance where
  session_id := "s1"
  trec_license := "123456-SA"
  checkin_at := some t
  method_checkin := some .scan

/-- The invariant of the claim C3 on the `part_004` data layout: a roster
row carries a check-out timestamp only if it carries a check-in timestamp. -/
abbrev P4.invCheckoutAfterCheckin (l : List P4.AttendanceRow) : Prop :=
  ∀ r ∈ l, r.checkout_at.isSome → r.checkin_at.isSome

/-- The same invariant on the `App.tsx`/`part_003` attendance rows. -/
abbrev invCheckoutAfterCheckin (l : List Attendance) : Prop :=
  ∀ a ∈ l, a.checkout_at.isSome → a.checkin_at.isSome

/-- A fresh `part_004` roster row for the chain of admin actions. -/
def P4.row0 : P4.AttendanceRow where
  session_id := "s1"
  trec_license := "123456-SA"

/-- The roster state after admin Manual Check-in (at 100), Manual Check-out
(at 200), then Undo Check-in — exactly the three `patchRoster` calls wired
to the `part_004` buttons. -/
def P4.undoChainState : List P4.AttendanceRow :=
  (P4.patchRoster true (some "s1")
    ((P4.patchRoster true (some "s1")
      ((P4.patchRoster true (some "s1") [P4.row0] "123456-SA"
        { checkin_at := some (some 100) }).2) "123456-SA"
      { checkout_at := some (some 200) }).2) "123456-SA"
    { checkin_at := some none }).2

/-- The inputs of one `App.submitScan` invocation, for stating properties of
arbitrary sequences of engine operations. -/
structure App.Call where
  supabaseConnected : Bool
  authed : Bool
  activeSession : Option Session
  headshotPath : Option String
  licenseInput : String
  scanText : Option Payload
  method : Method
  actionOverride : Option String
  now : Int

/-- The state transformer of one `App.submitScan` call. -/
def App.step (att : List Attendance) (c : App.Call) : List Attendance :=
  (App.submitScan att c.supabaseConnected c.authed c.activeSession c.headshotPath
    c.licenseInput c.scanText c.method c.actionOverride c.now).2

/-- Every attendance key matches the TREC license pattern and is a fixed
point of `normalizeLicense` (C10). -/
abbrev licenseKeysNormalized (att : List Attendance) : Prop :=
  ∀ a ∈ att, licMatch a.trec_license = true ∧
    normalizeLicense a.trec_license = a.trec_license


/-- The attendance record produced by an admin manual check-in of student
`123456-SA` into `scenarioSession` at `09:45:00Z` (past `checkinClosesAt`). -/
def manualLateRecord : Attendance where
  session_id := "s1"
  trec_license := "123456-SA"
  checkin_at := some 1769939100000
  method_checkin := some .manual

/-! ## Character and license-string lemmas -/

/-- `Char.ofNat` of a valid code point is injectively numbered. -/
theorem charToNat_ofNat (n : Nat) (h : n.isValidChar) : (Char.ofNat n).toNat = n := by
  simp [Char.ofNat, h, Char.ofNatAux, Char.toNat, UInt32.toNat, BitVec.toNat_ofNatLt]

/-- `Char.toUpper` fixes every character outside the ASCII lowercase range. -/
theorem charToUpper_of_notLower (c : Char) (h : ¬(c.toNat ≥ 97 ∧ c.toNat ≤ 122)) :
    c.toUpper = c := by
  simp [Char.toUpper, h]

/-- `Char.toUpper` is idempotent. -/
theorem charToUpper_idem (c : Char) : c.toUpper.toUpper = c.toUpper := by
  by_cases hc : c.toNat ≥ 97 ∧ c.toNat ≤ 122
  · have hv : (c.toNat - 32).isValidChar := by
      unfold Nat.isValidChar
      left
      omega
    have ht : (Char.ofNat (c.toNat - 32)).toNat = c.toNat - 32 := charToNat_ofNat _ hv
    have h1 : c.toUpper = Char.ofNat (c.toNat - 32) := by simp [Char.toUpper, hc]
    rw [h1]
    apply charToUpper_of_notLower
    omega
  · rw [charToUpper_of_notLower c hc, charToUpper_of_notLower c hc]

/-- `dropWhile` is `drop` of the `takeWhile` length. -/
theorem dropWhile_eq_drop_len (p : Char → Bool) (l : List Char) :
    List.dropWhile p l = List.drop (List.takeWhile p l).length l := by
  induction l with
  | nil => rfl
  | cons a t ih =>
    by_cases h : p a
    · simp [List.dropWhile_cons, List.takeWhile_cons, h, ih]
    · simp [List.dropWhile_cons, List.takeWhile_cons, h]

/-- A map that fixes every element of a list fixes the list. -/
theorem listMap_fix {α : Type} (f : α → α) (l : List α) (h : ∀ c ∈ l, f c = c) :
    l.map f = l := by
  induction l with
  | nil => rfl
  | cons a t ih =>
    rw [List.map_cons, h a (List.mem_cons_self a t),
      ih (fun c hc => h c (List.mem_cons_of_mem a hc))]

/-- A digit or one of the license suffix characters is fixed by `toUpper`
and is not whitespace. -/
theorem licChar_fixed (c : Char)
    (h : c.isDigit = true ∨ c = '-' ∨ c = 'S' ∨ c = 'A' ∨ c = 'B') :
    c.toUpper = c ∧ c.isWhitespace = false := by
  rcases h with hd | h
  · simp [Char.isDigit, UInt32.le_def, BitVec.le_def] at hd
    constructor
    · apply charToUpper_of_notLower
      unfold Char.toNat UInt32.toNat
      omega
    · simp only [Char.isWhitespace, Bool.or_eq_false_iff, decide_eq_false_iff_not,
        Char.ext_iff, UInt32.ext_iff, BitVec.toNat_eq]
      unfold UInt32.toNat
      simp only [show (' ').val.toBitVec.toNat = 32 from rfl,
        show ('\t').val.toBitVec.toNat = 9 from rfl,
        show ('\x0d').val.toBitVec.toNat = 13 from rfl,
        show ('\n').val.toBitVec.toNat = 10 from rfl]
      refine ⟨⟨⟨?_, ?_⟩, ?_⟩, ?_⟩ <;> omega
  · rcases h with rfl | rfl | rfl | rfl <;> exact ⟨by decide, by decide⟩

/-- Every character of a string accepted by `licMatch` is a digit or a
suffix character. -/
theorem licMatch_mem (w : String) (hw : licMatch w = true) (c : Char) (hc : c ∈ w.data) :
    c.isDigit = true ∨ c = '-' ∨ c = 'S' ∨ c = 'A' ∨ c = 'B' := by
  unfold licMatch at hw
  simp only [Bool.and_eq_true, Bool.or_eq_true, beq_iff_eq] at hw
  obtain ⟨hlen, hrest⟩ := hw
  have hsplit : w.data =
      w.data.takeWhile Char.isDigit ++ w.data.drop (w.data.takeWhile Char.isDigit).length := by
    conv_lhs => rw [← List.takeWhile_append_dropWhile (p := Char.isDigit) (l := w.data)]
    rw [dropWhile_eq_drop_len]
  rw [hsplit] at hc
  rcases List.mem_append.1 hc with hmem | hmem
  · exact Or.inl (List.mem_takeWhile_imp hmem)
  · right
    rcases hrest with (h | h) | h <;>
      (rw [h] at hmem
       simp only [List.mem_cons, List.not_mem_nil, or_false] at hmem
       tauto)

/-- A string accepted by `licMatch` is a fixed point of `normalizeLicense`. -/
theorem licMatch_norm_fixed (w : String) (hw : licMatch w = true) :
    normalizeLicense w = w := by
  unfold normalizeLicense
  have hfix : ∀ c ∈ w.data, c.toUpper = c ∧ c.isWhitespace = false :=
    fun c hc => licChar_fixed c (licMatch_mem w hw c hc)
  rw [listMap_fix Char.toUpper w.data (fun c hc => (hfix c hc).1)]
  have hfilter : w.data.filter (fun c => !c.isWhitespace) = w.data := by
    rw [List.filter_eq_self]
    intro c hc
    rw [(hfix c hc).2]
    rfl
  rw [hfilter]

/-- Every character in the output of `normalizeLicense` is already
uppercase, so a further `toUpper` map changes nothing. -/
theorem normData_upper (x : String) :
    (normalizeLicense x).data.map Char.toUpper = (normalizeLicense x).data := by
  apply listMap_fix
  intro c hc
  unfold normalizeLicense at hc
  have hm := List.mem_of_mem_filter hc
  rcases List.mem_map.1 hm with ⟨d, _, rfl⟩
  exact charToUpper_idem d

/-- On normalized strings, the case-insensitive license test agrees with the
case-sensitive one. -/
theorem licMatchCI_norm (x : String) :
    licMatchCI (normalizeLicense x) = licMatch (normalizeLicense x) := by
  unfold licMatchCI
  rw [normData_upper]

/-- C1: for `endsAt > startsAt` the window computation yields exactly
`startsAt ∓ 30 minutes` for check-in and `endsAt ∓ 60 minutes` for check-out;
for `endsAt ≤ startsAt` the input is rejected with the invalid-session-window
error.  `computeWindows` is a pure function, so the rejection has no side
effects. -/
theorem computeWindows_correct (startMs endMs : Int) :
    (endMs > startMs →
      computeWindows startMs endMs =
        .ok { checkinOpensAt := startMs - minutes 30
              checkinClosesAt := startMs + minutes 30
              checkoutOpensAt := endMs - minutes 60
              checkoutClosesAt := endMs + minutes 60 }) ∧
    (endMs ≤ startMs →
      computeWindows startMs endMs = .error "End time must be after start time.") := by
  constructor
  · intro h
    simp [computeWindows, h, minutes]
  · intro h
    simp [computeWindows, minutes]
    omega

/-- Witness for `computeWindows_correct` at concrete instants. -/
theorem computeWindows_correct_witness :
    computeWindows 1000 4000 =
      .ok { checkinOpensAt := 1000 - minutes 30
            checkinClosesAt := 1000 + minutes 30
            checkoutOpensAt := 4000 - minutes 60
            checkoutClosesAt := 4000 + minutes 60 } ∧
    computeWindows 4000 1000 = .error "End time must be after start time." :=
  ⟨(computeWindows_correct 1000 4000).1 (by norm_num),
   (computeWindows_correct 4000 1000).2 (by norm_num)⟩

/-- C7 counterexample: `2026-02-01T08:35:00Z` (= 1769934900000 ms) is five
minutes *after* `checkinOpensAt = 08:30:00Z`, not before it, so the scan
check-in the claim expects to be rejected `TooEarly` in fact succeeds:
the status is the success message, not `"Check-in is not open yet."`, and
the student is checked in. -/
theorem scenarioA_0835_checks_in :
    App.submitScan [] true true (some scenarioSession) (some "headshot.jpg") "123456-SA"
      (some scenarioCheckinPayload) .scan none 1769934900000 =
      ("Checked in. Welcome!", [scanCheckinRecord 1769934900000]) ∧
    "Checked in. Welcome!" ≠ "Check-in is not open yet." :=
  ⟨rfl, by decide⟩

/-- C7 amended: the `TooEarly` instant of Scenario A must lie before
`checkinOpensAt = 08:30:00Z`; at `08:25:00Z` (= 1769934300000 ms, five
minutes before the window opens) the scan is rejected `"Check-in is not
open yet."` with the attendance state untouched, and at `08:45:00Z`
(= 1769935500000 ms) the same scan succeeds and records the check-in. -/
theorem scenarioA_amended :
    App.submitScan [] true true (some scenarioSession) (some "headshot.jpg") "123456-SA"
      (some scenarioCheckinPayload) .scan none 1769934300000 =
      ("Check-in is not open yet.", []) ∧
    App.submitScan [] true true (some scenarioSession) (some "headshot.jpg") "123456-SA"
      (some scenarioCheckinPayload) .scan none 1769935500000 =
      ("Checked in. Welcome!", [scanCheckinRecord 1769935500000]) :=
  ⟨rfl, rfl⟩

/-- C3 counterexample: after admin manual check-in, manual check-out and
admin "Undo Check-in" (`patchRoster` with `{checkin_at: null}`, which does
not cascade to `checkout_at`), the reachable record has `checkout_at` set
and `checkin_at` absent — the invariant fails on a state reachable by the
privileged admin undo operation. -/
theorem undoCheckin_breaks_invariant :
    P4.undoChainState =
      [{ session_id := "s1", trec_license := "123456-SA", checkin_at := none
         checkout_at := some 200 }] ∧
    ¬ P4.invCheckoutAfterCheckin P4.undoChainState :=
  ⟨rfl, by decide⟩

/-- C5 counterexample: in the `part_003` variant, a manual check-out for a
(session, student) pair with no attendance record is rejected with the
check-in-required message, but `upsertAttendance` has already appended a
blank record, so the attendance state is *not* left unchanged. -/
theorem p3_checkout_creates_blank_record :
    P3.submitScan [] [] false (some scenarioSession) "123456-SA" none
      .manual (some "checkout") none 100 =
      ("Check-in required before check-out.",
       [{ session_id := "s1", trec_license := "123456-SA" }]) ∧
    ([{ session_id := "s1", trec_license := "123456-SA" }] : List Attendance) ≠ [] :=
  ⟨rfl, by decide⟩

/-- C9 counterexample: in the `part_003` variant, a scan whose payload action
is `"potato"` is reported `"Unknown action."`, but only after
`upsertAttendance` has appended a blank attendance record for the student:
the attendance state changes. -/
theorem p3_unknown_action_creates_blank_record :
    P3.submitScan [] [{ trec_license := "123456-SA" }] true (some scenarioSession)
      "123456-SA"
      (some { action := some "potato", sessionId := some "s1", code := some "QRIN",
              expiresAt := some 1770000000000 })
      .scan none none 100 =
      ("Unknown action.",
       [{ session_id := "s1", trec_license := "123456-SA" }]) ∧
    ([{ session_id := "s1", trec_license := "123456-SA" }] : List Attendance) ≠ [] :=
  ⟨rfl, by decide⟩

/-- Membership in an upserted attendance list: an element is an old row or
the upserted row. -/
theorem upsertRow_mem {att : List Attendance} {r a : Attendance}
    (h : a ∈ upsertRow att r) : a ∈ att ∨ a = r := by
  unfold upsertRow at h
  split at h
  · rcases List.mem_map.1 h with ⟨b, hb, hba⟩
    by_cases hc : (b.session_id == r.session_id && b.trec_license == r.trec_license) = true
    · rw [if_pos hc] at hba
      exact Or.inr hba.symm
    · rw [if_neg hc] at hba
      exact Or.inl (hba ▸ hb)
  · rcases List.mem_append.1 h with hb | hb
    · exact Or.inl hb
    · exact Or.inr (List.mem_singleton.1 hb)

/-- A record found under the composite key carries that key. -/
theorem find?_key {att : List Attendance} {sid lic : String} {b : Attendance}
    (h : att.find? (fun a => a.session_id == sid && a.trec_license == lic) = some b) :
    b.session_id = sid ∧ b.trec_license = lic := by
  have hp := List.find?_some h
  simp only [Bool.and_eq_true, beq_iff_eq] at hp
  exact hp

/-- Write analysis of the `App.tsx` transition: the state is unchanged, or
one row keyed by the student license is upserted, and a written row never
has a check-out timestamp without a check-in timestamp. -/
theorem App.applyTransition_cases (att : List Attendance) (sess : Session)
    (lic : String) (action : Option String) (m : Method) (now : Int) :
    (App.applyTransition att sess lic action m now).2 = att ∨
    ∃ r : Attendance,
      (App.applyTransition att sess lic action m now).2 = upsertRow att r ∧
      (r.checkout_at.isSome = true → r.checkin_at.isSome = true) ∧
      r.trec_license = lic ∧ r.session_id = sess.id := by
  unfold App.applyTransition
  dsimp only
  split
  · split
    · exact Or.inl rfl
    · refine Or.inr ⟨_, rfl, ?_, ?_, ?_⟩
      · intro
        simp
      · cases hf : att.find? (fun a => a.session_id == sess.id && a.trec_license == lic) with
        | none => simp [hf]
        | some b => simp [hf, (find?_key hf).2]
      · cases hf : att.find? (fun a => a.session_id == sess.id && a.trec_license == lic) with
        | none => simp [hf]
        | some b => simp [hf, (find?_key hf).1]
  · split
    · split
      · exact Or.inl rfl
      · split
        · exact Or.inl rfl
        · refine Or.inr ⟨_, rfl, ?_, ?_, ?_⟩
          · intro
            simp only [Option.isSome_iff_ne_none]
            next hne _ _ => exact hne
          · cases hf : att.find? (fun a => a.session_id == sess.id && a.trec_license == lic) with
            | none => simp [hf]
            | some b => simp [hf, (find?_key hf).2]
          · cases hf : att.find? (fun a => a.session_id == sess.id && a.trec_license == lic) with
            | none => simp [hf]
            | some b => simp [hf, (find?_key hf).1]
    · exact Or.inl rfl

/-- Write analysis lifted through `App.afterParse`. -/
theorem App.afterParse_cases (att : List Attendance) (sess : Session)
    (lic : String) (m : Method) (ao action sessionId code : Option String)
    (expiresAt : Option Int) (now : Int) :
    (App.afterParse att sess lic m ao action sessionId code expiresAt now).2 = att ∨
    ∃ r : Attendance,
      (App.afterParse att sess lic m ao action sessionId code expiresAt now).2 =
        upsertRow att r ∧
      (r.checkout_at.isSome = true → r.checkin_at.isSome = true) ∧
      r.trec_license = lic ∧ r.session_id = sess.id := by
  unfold App.afterParse
  split
  · exact Or.inl rfl
  · split
    · exact Or.inl rfl
    · split
      · exact Or.inl rfl
      · exact App.applyTransition_cases att sess lic action m now

/-- Write analysis of a full `App.tsx` `submitScan` call: either the state is
untouched, or the license input passed validation and exactly one row keyed
by the normalized license was upserted, never with a check-out timestamp and
no check-in timestamp. -/
theorem App.submitScan_write_cases (att : List Attendance) (sc au : Bool)
    (as : Option Session) (hp : Option String) (li : String) (st : Option Payload)
    (m : Method) (ao : Option String) (now : Int) :
    (App.submitScan att sc au as hp li st m ao now).2 = att ∨
    (App.isValidLicense (normalizeLicense li) = true ∧
     ∃ r : Attendance,
       (App.submitScan att sc au as hp li st m ao now).2 = upsertRow att r ∧
       (r.checkout_at.isSome = true → r.checkin_at.isSome = true) ∧
       r.trec_license = normalizeLicense li) := by
  unfold App.submitScan
  split
  · exact Or.inl rfl
  · split
    · exact Or.inl rfl
    · next sess =>
      split
      · exact Or.inl rfl
      · split
        · exact Or.inl rfl
        · dsimp only
          split
          · exact Or.inl rfl
          · next hval =>
            have hv : App.isValidLicense (normalizeLicense li) = true := by
              simpa using hval
            split
            · rcases App.afterParse_cases att sess (normalizeLicense li) m ao ao
                (some sess.id) none none now with h | ⟨r, hr, hinv, hkey, _⟩
              · exact Or.inl h
              · exact Or.inr ⟨hv, r, hr, hinv, hkey⟩
            · split
              · exact Or.inl rfl
              · next p =>
                rcases App.afterParse_cases att sess (normalizeLicense li) m ao
                  p.action p.sessionId p.code p.expiresAt now with h | ⟨r, hr, hinv, hkey, _⟩
                · exact Or.inl h
                · exact Or.inr ⟨hv, r, hr, hinv, hkey⟩

/-- One `App.submitScan` call preserves the checkout-requires-checkin
invariant. -/
theorem App.step_preserves_inv (att : List Attendance) (c : App.Call)
    (h : invCheckoutAfterCheckin att) : invCheckoutAfterCheckin (App.step att c) := by
  unfold App.step
  rcases App.submitScan_write_cases att c.supabaseConnected c.authed c.activeSession
    c.headshotPath c.licenseInput c.scanText c.method c.actionOverride c.now with
    heq | ⟨_, r, heq, hinv, _⟩
  · rw [heq]
    exact h
  · rw [heq]
    intro a ha hco
    rcases upsertRow_mem ha with hmem | rfl
    · exact h a hmem hco
    · exact hinv hco

/-- C3 amended: the checkout-requires-checkin invariant is preserved by every
sequence of `App.tsx` `submitScan` calls (scan or manual, check-in or
check-out); only the `part_004` admin patch operations (undo check-in,
unconditional manual check-out) can break it, as the counterexample shows. -/
theorem submitScan_sequences_preserve_invariant (calls : List App.Call)
    (att : List Attendance) (h : invCheckoutAfterCheckin att) :
    invCheckoutAfterCheckin (calls.foldl App.step att) := by
  induction calls generalizing att with
  | nil => exact h
  | cons c cs ih => exact ih (App.step att c) (App.step_preserves_inv att c h)

/-- `find?` after replacing every `p`-matching element by `r` finds `r`,
provided some element matched. -/
theorem find?_map_replace {α : Type} (p : α → Bool) (r : α) (l : List α)
    (hp : p r = true) (hany : l.any p = true) :
    (l.map (fun a => if p a then r else a)).find? p = some r := by
  induction l with
  | nil => simp at hany
  | cons a t ih =>
    by_cases hc : p a = true
    · simp [List.map_cons, hc, List.find?_cons, hp]
    · simp only [List.any_cons, Bool.or_eq_true] at hany
      rcases hany with h | h
      · exact absurd h hc
      · have hcf : p a = false := by simpa using hc
        simpa [List.map_cons, List.find?_cons, hcf] using ih h

/-- `find?` on `l ++ [r]` finds `r` when no element of `l` matches. -/
theorem find?_append_last {α : Type} (p : α → Bool) (r : α) (l : List α)
    (hp : p r = true) (hall : ∀ a ∈ l, p a = false) :
    (l ++ [r]).find? p = some r := by
  induction l with
  | nil => simp [List.find?_cons, hp]
  | cons a t ih =>
    have h1 := hall a (List.mem_cons_self a t)
    simp only [List.cons_append, List.find?_cons, h1]
    exact ih (fun b hb => hall b (List.mem_cons_of_mem a hb))

/-- `find?` on an upserted list locates the upserted row under its key. -/
theorem find?_upsertRow (att : List Attendance) (r : Attendance) :
    (upsertRow att r).find?
      (fun a => a.session_id == r.session_id && a.trec_license == r.trec_license) = some r := by
  have hp : (r.session_id == r.session_id && r.trec_license == r.trec_license) = true := by
    simp
  unfold upsertRow
  split
  · next hany => exact find?_map_replace _ r att hp hany
  · next hany =>
    refine find?_append_last _ r att hp ?_
    intro a ha
    by_contra hne
    exact hany (List.any_eq_true.2 ⟨a, ha, by simpa using hne⟩)

/-- C4: from a (session, student) pair with no check-in timestamp, the first
check-in transition succeeds (`CheckedIn`, upserting the stamped record) and
an immediately repeated check-in is rejected `"Already checked in."` with the
attendance state exactly as the first call left it. -/
theorem App.checkin_idempotent (att : List Attendance) (sess : Session) (lic : String)
    (m1 m2 : Method) (now1 now2 : Int)
    (hbase : ((att.find? (fun a => a.session_id == sess.id && a.trec_license == lic)).getD
        { session_id := sess.id, trec_license := lic }).checkin_at = none) :
    App.applyTransition att sess lic (some "checkin") m1 now1 =
      ((if m1 = .manual then "Manual check-in recorded." else "Checked in. Welcome!"),
       upsertRow att
         { (att.find? (fun a => a.session_id == sess.id && a.trec_license == lic)).getD
             { session_id := sess.id, trec_license := lic } with
           checkin_at := some now1, method_checkin := some m1 }) ∧
    App.applyTransition (App.applyTransition att sess lic (some "checkin") m1 now1).2
        sess lic (some "checkin") m2 now2 =
      ("Already checked in.", (App.applyTransition att sess lic (some "checkin") m1 now1).2) := by
  have h1 : App.applyTransition att sess lic (some "checkin") m1 now1 =
      ((if m1 = .manual then "Manual check-in recorded." else "Checked in. Welcome!"),
       upsertRow att
         { (att.find? (fun a => a.session_id == sess.id && a.trec_license == lic)).getD
             { session_id := sess.id, trec_license := lic } with
           checkin_at := some now1, method_checkin := some m1 }) := by
    unfold App.applyTransition
    simp [hbase]
  refine ⟨h1, ?_⟩
  rw [h1]
  dsimp only
  have hkey : ((att.find? (fun a => a.session_id == sess.id && a.trec_license == lic)).getD
      { session_id := sess.id, trec_license := lic }).session_id = sess.id ∧
      ((att.find? (fun a => a.session_id == sess.id && a.trec_license == lic)).getD
      { session_id := sess.id, trec_license := lic }).trec_license = lic := by
    cases hf : att.find? (fun a => a.session_id == sess.id && a.trec_license == lic) with
    | none => simp [hf]
    | some b =>
      simp only [hf, Option.getD_some]
      exact find?_key hf
  have hfind := find?_upsertRow att
    { (att.find? (fun a => a.session_id == sess.id && a.trec_license == lic)).getD
        { session_id := sess.id, trec_license := lic } with
      checkin_at := some now1, method_checkin := some m1 }
  rw [show ({ (att.find? (fun a => a.session_id == sess.id && a.trec_license == lic)).getD
        { session_id := sess.id, trec_license := lic } with
      checkin_at := some now1, method_checkin := some m1 } : Attendance).session_id = sess.id
      from hkey.1,
    show ({ (att.find? (fun a => a.session_id == sess.id && a.trec_license == lic)).getD
        { session_id := sess.id, trec_license := lic } with
      checkin_at := some now1, method_checkin := some m1 } : Attendance).trec_license = lic
      from hkey.2] at hfind
  unfold App.applyTransition
  simp [hfind]

/-- What `findWithIndex` finds is a member carrying the searched key. -/
theorem P3.findWithIndex_mem (sid lic : String) (l : List Attendance)
    (a : Attendance) (i : Nat) (h : P3.findWithIndex sid lic l = some (a, i)) :
    a ∈ l ∧ a.session_id = sid ∧ a.trec_license = lic := by
  induction l generalizing i with
  | nil => simp [P3.findWithIndex] at h
  | cons b t ih =>
    unfold P3.findWithIndex at h
    split at h
    · next hb =>
      simp only [Option.some.injEq, Prod.mk.injEq] at h
      obtain ⟨rfl, -⟩ := h
      simp only [Bool.and_eq_true, beq_iff_eq] at hb
      exact ⟨List.mem_cons_self b t, hb⟩
    · rcases ho : P3.findWithIndex sid lic t with - | ⟨c, j⟩
      · rw [ho] at h
        simp at h
      · rw [ho] at h
        simp only [Option.map, Option.some.injEq, Prod.mk.injEq] at h
        obtain ⟨rfl, -⟩ := h
        obtain ⟨hm, hs, hl⟩ := ih j ho
        exact ⟨List.mem_cons_of_mem b hm, hs, hl⟩

/-- `upsertAttendance` leaves the list unchanged or appends one blank record,
and the record it reports always carries the normalized key. -/
theorem P3.upsertAttendance_state (att : List Attendance) (sid lic : String) :
    ((P3.upsertAttendance att sid lic).2.2 = att ∨
     (P3.upsertAttendance att sid lic).2.2 =
       att ++ [{ session_id := sid, trec_license := normalizeLicense lic }]) ∧
    (P3.upsertAttendance att sid lic).1.trec_license = normalizeLicense lic ∧
    (P3.upsertAttendance att sid lic).1.session_id = sid := by
  unfold P3.upsertAttendance
  dsimp only
  rcases hf : P3.findWithIndex sid (normalizeLicense lic) att with - | ⟨a, i⟩
  · simp
  · obtain ⟨-, hs, hl⟩ := P3.findWithIndex_mem sid (normalizeLicense lic) att a i hf
    simp [hs, hl]

/-- Every row in the state after the `part_003` transition is an old row or
carries the normalized student key. -/
theorem P3.applyTransition_members (att : List Attendance) (sess : Session)
    (lic : String) (action : Option String) (m : Method) (now : Int) :
    ∀ a ∈ (P3.applyTransition att sess lic action m now).2,
      a ∈ att ∨ a.trec_license = normalizeLicense lic := by
  have hup := P3.upsertAttendance_state att sess.id lic
  have hmem1 : ∀ a ∈ (P3.upsertAttendance att sess.id lic).2.2,
      a ∈ att ∨ a.trec_license = normalizeLicense lic := by
    intro a ha
    rcases hup.1 with he | he
    · exact Or.inl (he ▸ ha)
    · rw [he] at ha
      rcases List.mem_append.1 ha with h | h
      · exact Or.inl h
      · right
        rw [List.mem_singleton.1 h]
  have hmem2 : ∀ {r : Attendance} {i : Nat} {a : Attendance},
      a ∈ P3.updateAttendance (P3.upsertAttendance att sess.id lic).2.2 i r →
      r.trec_license = normalizeLicense lic →
      a ∈ att ∨ a.trec_license = normalizeLicense lic := by
    intro r i a ha hr
    unfold P3.updateAttendance at ha
    rcases List.mem_or_eq_of_mem_set ha with h | rfl
    · exact hmem1 a h
    · exact Or.inr hr
  unfold P3.applyTransition
  dsimp only
  split
  · split
    · exact hmem1
    · intro a ha
      exact hmem2 ha hup.2.1
  · split
    · split
      · exact hmem1
      · split
        · exact hmem1
        · intro a ha
          exact hmem2 ha hup.2.1
    · exact hmem1

/-- Member analysis lifted through `P3.afterParse`. -/
theorem P3.afterParse_members (att : List Attendance) (sess : Session) (lic : String)
    (m : Method) (action : Option String) (sid : String) (code : Option String)
    (expiresAt : Option Int) (now : Int) :
    (P3.afterParse att sess lic m action sid code expiresAt now).2 = att ∨
    ∀ a ∈ (P3.afterParse att sess lic m action sid code expiresAt now).2,
      a ∈ att ∨ a.trec_license = normalizeLicense lic := by
  unfold P3.afterParse
  split
  · exact Or.inl rfl
  · split
    · exact Or.inl rfl
    · split
      · exact Or.inl rfl
      · exact Or.inr (P3.applyTransition_members att sess lic action m now)

/-- Write analysis of a full `part_003` `submitScan` call: either the state
is untouched, or the license input passed validation and every new row
carries the (doubly) normalized student key. -/
theorem P3.submitScan_members (att : List Attendance) (roster : List P3.RosterRow)
    (au : Bool) (as : Option Session) (li : String) (st : Option Payload)
    (m : Method) (ao lo : Option String) (now : Int) :
    (P3.submitScan att roster au as li st m ao lo now).2 = att ∨
    (P3.isValidLicense (normalizeLicense (jsOrStr lo li)) = true ∧
     ∀ a ∈ (P3.submitScan att roster au as li st m ao lo now).2,
       a ∈ att ∨ a.trec_license = normalizeLicense (normalizeLicense (jsOrStr lo li))) := by
  unfold P3.submitScan
  split
  · exact Or.inl rfl
  · next sess =>
    dsimp only
    split
    · exact Or.inl rfl
    · next hval =>
      have hv : P3.isValidLicense (normalizeLicense (jsOrStr lo li)) = true := by
        simpa using hval
      split
      · exact Or.inl rfl
      · split
        · exact Or.inl rfl
        · split
          · rcases P3.afterParse_members att sess (normalizeLicense (jsOrStr lo li)) m ao
              sess.id none none now with h | h
            · exact Or.inl h
            · exact Or.inr ⟨hv, h⟩
          · split
            · exact Or.inl rfl
            · next p =>
              rcases P3.afterParse_members att sess (normalizeLicense (jsOrStr lo li)) m
                (jsOrOpt ao p.action) (jsOrStr p.sessionId sess.id) p.code p.expiresAt now with
                h | h
              · exact Or.inl h
              · exact Or.inr ⟨hv, h⟩

/-- C2 amended: in the `part_003` variant — the only one that enforces the
code — a scan submission that passes the earlier checks but whose payload
code differs from the session's `checkinCode` (action `checkin`) or
`checkoutCode` (action `checkout`) is rejected with the invalid-code message
and the attendance state is unchanged.  The `App.tsx` variant never compares
the code (see the counterexample). -/
theorem P3_wrong_code_rejected (att : List Attendance) (roster : List P3.RosterRow)
    (sess : Session) (li c : String) (lo : Option String) (p : Payload) (now e : Int)
    (hlic : P3.isValidLicense (normalizeLicense (jsOrStr lo li)) = true)
    (hros : P3.rosterContains roster (normalizeLicense (jsOrStr lo li)) = true)
    (hsid : jsOrStr p.sessionId sess.id = sess.id)
    (hcode : p.code = some c) (hc0 : c ≠ "")
    (hexp : p.expiresAt = some e)
    (hfresh : ¬ e < now) :
    (p.action = some "checkin" → c ≠ sess.checkinCode →
      P3.submitScan att roster true (some sess) li (some p) .scan none lo now =
        ("Invalid check-in code.", att)) ∧
    (p.action = some "checkout" → c ≠ sess.checkoutCode →
      P3.submitScan att roster true (some sess) li (some p) .scan none lo now =
        ("Invalid check-out code.", att)) := by
  constructor
  · intro ha hw
    simp [P3.submitScan, P3.afterParse, P3.scanGate, hlic, hros, hsid, hcode, hc0, hexp,
      hfresh, jsOrOpt, strTruthy, isExpired, ha, hw]
  · intro ha hw
    simp [P3.submitScan, P3.afterParse, P3.scanGate, hlic, hros, hsid, hcode, hc0, hexp,
      hfresh, jsOrOpt, strTruthy, isExpired, ha, hw]

theorem strTruthy_none_eq : strTruthy none = false := rfl

theorem jsOrStr_none_eq (b : String) : jsOrStr none b = b := rfl

theorem strTruthy_some_true (s : String) (h : s ≠ "") : strTruthy (some s) = true := by
  simp [strTruthy, h]

/-- C6: in both variants, a submission that reaches the payload checks with a
target `sessionId` differing from the active session's id is rejected
`WrongSession`, with no hypotheses about the code, expiry or window — the
sessionId check precedes the code and window checks (first failure wins). -/
theorem wrong_session_rejected (att : List Attendance) (roster : List P3.RosterRow)
    (sess : Session) (hp : Option String) (li : String) (p : Payload)
    (m : Method) (now : Int) :
    (strTruthy hp = true → App.isValidLicense (normalizeLicense li) = true →
      p.sessionId ≠ some sess.id →
      App.submitScan att true true (some sess) hp li (some p) m none now =
        ("That code is for a different class session.", att)) ∧
    (P3.isValidLicense (normalizeLicense li) = true →
      P3.rosterContains roster (normalizeLicense li) = true →
      jsOrStr p.sessionId sess.id ≠ sess.id →
      P3.submitScan att roster true (some sess) li (some p) m none none now =
        ("That code is for a different class session.", att)) := by
  constructor
  · intro h1 h2 h3
    simp [App.submitScan, App.afterParse, h1, h2, h3, strTruthy_none_eq]
  · intro h1 h2 h3
    simp [P3.submitScan, P3.afterParse, h1, h2, h3, strTruthy_none_eq, jsOrStr_none_eq]

/-- C5 amended: a checkout transition for a pair in the `NotCheckedIn` state
is rejected with the check-in-required message and sets no timestamps; the
`App.tsx` variant leaves the attendance list unchanged, while the `part_003`
variant additionally appends a blank record when the pair had none (see the
counterexample). -/
theorem checkout_before_checkin_rejected (att : List Attendance) (sess : Session)
    (lic : String) (m : Method) (now : Int)
    (happ : ((att.find? (fun a => a.session_id == sess.id && a.trec_license == lic)).getD
        { session_id := sess.id, trec_license := lic }).checkin_at = none)
    (hp3 : (P3.upsertAttendance att sess.id lic).1.checkin_at = none) :
    App.applyTransition att sess lic (some "checkout") m now =
      ("Check-in required before check-out.", att) ∧
    P3.applyTransition att sess lic (some "checkout") m now =
      ("Check-in required before check-out.", (P3.upsertAttendance att sess.id lic).2.2) ∧
    ((P3.upsertAttendance att sess.id lic).2.2 = att ∨
     (P3.upsertAttendance att sess.id lic).2.2 =
       att ++ [{ session_id := sess.id, trec_license := normalizeLicense lic }]) := by
  refine ⟨?_, ?_, (P3.upsertAttendance_state att sess.id lic).1⟩
  · simp [App.applyTransition, happ]
  · simp [P3.applyTransition, hp3]

/-- C9 amended: a submission whose action is neither `checkin` nor `checkout`
is reported `"Unknown action."` by the `part_003` variant, which however may
first append a blank attendance record (see the counterexample), while the
`App.tsx` variant leaves the state unchanged but reports no message at all
(final status `""`). -/
theorem unknown_action_results (att : List Attendance) (roster : List P3.RosterRow)
    (sess : Session) (hp : Option String) (li a c : String) (p : Payload) (now e : Int)
    (ha : p.action = some a) (ha1 : a ≠ "checkin") (ha2 : a ≠ "checkout") (ha0 : a ≠ "")
    (hlic3 : P3.isValidLicense (normalizeLicense li) = true)
    (hros : P3.rosterContains roster (normalizeLicense li) = true)
    (hsid3 : jsOrStr p.sessionId sess.id = sess.id)
    (hcode : p.code = some c) (hc0 : c ≠ "")
    (hexp : p.expiresAt = some e) (hfresh : ¬ e < now)
    (hlicA : App.isValidLicense (normalizeLicense li) = true)
    (hsidA : p.sessionId = some sess.id)
    (hhp : strTruthy hp = true) :
    P3.submitScan att roster true (some sess) li (some p) .scan none none now =
      ("Unknown action.", (P3.upsertAttendance att sess.id (normalizeLicense li)).2.2) ∧
    ((P3.upsertAttendance att sess.id (normalizeLicense li)).2.2 = att ∨
     (P3.upsertAttendance att sess.id (normalizeLicense li)).2.2 =
       att ++ [{ session_id := sess.id,
                 trec_license := normalizeLicense (normalizeLicense li) }]) ∧
    App.submitScan att true true (some sess) hp li (some p) .scan none now = ("", att) := by
  refine ⟨?_, (P3.upsertAttendance_state att sess.id (normalizeLicense li)).1, ?_⟩
  · simp [P3.submitScan, P3.afterParse, P3.scanGate, P3.applyTransition, hlic3, hros, hsid3,
      hcode, hc0, hexp, hfresh, ha, ha1, ha2, ha0, jsOrOpt, strTruthy_none_eq,
      jsOrStr_none_eq, strTruthy, isExpired]
  · simp [App.submitScan, App.afterParse, App.scanGate, App.applyTransition, hlicA, hsidA,
      hcode, hc0, hexp, hfresh, ha, ha1, ha2, ha0, hhp, strTruthy_none_eq, isExpired,
      strTruthy_some_true a ha0, strTruthy_some_true c hc0]


/-- C8: a scan check-in by a student not on the roster fails `NotOnRoster`
(before the payload is even parsed), while a manual admin check-in bypasses
both the roster and the window checks: at `09:45:00Z`, past
`checkinClosesAt = 09:30:00Z`, the scan is rejected `TooLate` but the manual
check-in succeeds. -/
theorem roster_gate_and_manual_bypass (att : List Attendance)
    (roster : List P3.RosterRow) (sess : Session) (li : String) (st : Option Payload)
    (ao lo : Option String) (now : Int)
    (hlic : P3.isValidLicense (normalizeLicense (jsOrStr lo li)) = true)
    (hros : P3.rosterContains roster (normalizeLicense (jsOrStr lo li)) = false) :
    P3.submitScan att roster true (some sess) li st .scan ao lo now =
      ("That TREC license number is not on the paid roster for this class session.", att) ∧
    App.submitScan [] true true (some scenarioSession) (some "headshot.jpg") "123456-SA"
      (some scenarioCheckinPayload) .scan none 1769939100000 =
      ("Check-in has closed for today.", []) ∧
    App.submitScan [] true true (some scenarioSession) (some "headshot.jpg") "123456-SA"
      none .manual (some "checkin") 1769939100000 =
      ("Manual check-in recorded.", [manualLateRecord]) := by
  refine ⟨?_, rfl, rfl⟩
  simp [P3.submitScan, hlic, hros]

/-- C10: both variants reject any submission whose student identifier fails
the 6-7-digit + `-SA`/`-B`/`-BB` pattern after normalization, before touching
the attendance state; consequently, if every persisted key matches the
pattern and is `normalizeLicense`-fixed, the same holds after any submission
(scan or manual). -/
theorem license_gate_and_normalized_keys (att : List Attendance)
    (roster : List P3.RosterRow) (sess : Session) (hp : Option String)
    (li : String) (st : Option Payload) (m : Method) (ao lo : Option String)
    (au sc : Bool) (now : Int) :
    (P3.isValidLicense (normalizeLicense (jsOrStr lo li)) = false →
      P3.submitScan att roster au (some sess) li st m ao lo now =
        ("Enter full TREC license number like 123456-SA (suffix required: -SA, -B, or -BB).",
         att)) ∧
    (strTruthy hp = true → App.isValidLicense (normalizeLicense li) = false →
      App.submitScan att true true (some sess) hp li st m ao now =
        ("Enter full TREC license like 123456-SA (suffix: -SA, -B, or -BB).", att)) ∧
    (licenseKeysNormalized att →
      licenseKeysNormalized (P3.submitScan att roster au (some sess) li st m ao lo now).2) ∧
    (licenseKeysNormalized att →
      licenseKeysNormalized (App.submitScan att sc au (some sess) hp li st m ao now).2) := by
  refine ⟨?_, ?_, ?_, ?_⟩
  · intro hbad
    simp [P3.submitScan, hbad]
  · intro hhp hbad
    simp [App.submitScan, hhp, hbad]
  · intro hok
    rcases P3.submitScan_members att roster au (some sess) li st m ao lo now with
      heq | ⟨hv, hmem⟩
    · rw [heq]
      exact hok
    · intro a ha
      rcases hmem a ha with hold | hkey
      · exact hok a hold
      · have hm : licMatch (normalizeLicense (normalizeLicense (jsOrStr lo li))) = true := by
          simpa [P3.isValidLicense] using hv
        rw [hkey]
        exact ⟨hm, licMatch_norm_fixed _ hm⟩
  · intro hok
    rcases App.submitScan_write_cases att sc au (some sess) hp li st m ao now with
      heq | ⟨hv, r, heq, -, hkey⟩
    · rw [heq]
      exact hok
    · have hm : licMatch (normalizeLicense li) = true := by
        have := licMatchCI_norm li
        simpa [App.isValidLicense, this] using hv
      rw [heq]
      intro a ha
      rcases upsertRow_mem ha with hold | rfl
      · exact hok a hold
      · rw [hkey]
        exact ⟨hm, licMatch_norm_fixed _ hm⟩

/-- Witness for `P3_wrong_code_rejected`: a concrete wrong-code check-in scan
is rejected with the invalid-code message and no state change. -/
theorem P3_wrong_code_rejected_witness :
    P3.submitScan [] [{ trec_license := "123456-SA" }] true (some scenarioSession)
      "123456-SA"
      (some { action := some "checkin", sessionId := some "s1", code := some "WRONG",
              expiresAt := some 1770000000000 })
      .scan none none 100 = ("Invalid check-in code.", []) :=
  (P3_wrong_code_rejected [] [{ trec_license := "123456-SA" }] scenarioSession
    "123456-SA" "WRONG" none
    { action := some "checkin", sessionId := some "s1", code := some "WRONG",
      expiresAt := some 1770000000000 }
    100 1770000000000 rfl rfl rfl rfl (by decide) rfl (by decide)).1 rfl (by decide)

/-- Witness for `submitScan_sequences_preserve_invariant`: one concrete scan
check-in applied to the empty state keeps the invariant. -/
theorem submitScan_sequences_preserve_invariant_witness :
    invCheckoutAfterCheckin
      (([{ supabaseConnected := true, authed := true,
           activeSession := some scenarioSession, headshotPath := some "headshot.jpg",
           licenseInput := "123456-SA", scanText := some scenarioCheckinPayload,
           method := .scan, actionOverride := none,
           now := 1769935500000 }] : List App.Call).foldl App.step []) :=
  submitScan_sequences_preserve_invariant _ [] (by decide)

/-- Witness for `App.checkin_idempotent`: a concrete repeated check-in is
rejected the second time. -/
theorem App_checkin_idempotent_witness :
    (App.applyTransition
      (App.applyTransition [] scenarioSession "123456-SA" (some "checkin") .scan 100).2
      scenarioSession "123456-SA" (some "checkin") .scan 200).1 = "Already checked in." :=
  congrArg Prod.fst
    (App.checkin_idempotent [] scenarioSession "123456-SA" .scan .scan 100 200 rfl).2

/-- Witness for `checkout_before_checkin_rejected` at a concrete empty
state. -/
theorem checkout_before_checkin_rejected_witness :
    App.applyTransition [] scenarioSession "123456-SA" (some "checkout") .manual 100 =
      ("Check-in required before check-out.", []) :=
  (checkout_before_checkin_rejected [] scenarioSession "123456-SA" .manual 100 rfl rfl).1

/-- Witness for `wrong_session_rejected`: a concrete scan whose payload names
another session is rejected with the wrong-session message. -/
theorem wrong_session_rejected_witness :
    App.submitScan [] true true (some scenarioSession) (some "headshot.jpg") "123456-SA"
      (some { action := some "checkin", sessionId := some "s2", code := some "QRIN",
              expiresAt := some 1770000000000 })
      .scan none 100 = ("That code is for a different class session.", []) :=
  (wrong_session_rejected [] [] scenarioSession (some "headshot.jpg") "123456-SA"
    { action := some "checkin", sessionId := some "s2", code := some "QRIN",
      expiresAt := some 1770000000000 }
    .scan 100).1 rfl rfl (by decide)

/-- Witness for `unknown_action_results` at a concrete `"potato"` action. -/
theorem unknown_action_results_witness :
    P3.submitScan [] [{ trec_license := "123456-SA" }] true (some scenarioSession)
      "123456-SA"
      (some { action := some "potato", sessionId := some "s1", code := some "QRIN",
              expiresAt := some 1770000000000 })
      .scan none none 100 =
      ("Unknown action.",
       (P3.upsertAttendance [] scenarioSession.id (normalizeLicense "123456-SA")).2.2) :=
  (unknown_action_results [] [{ trec_license := "123456-SA" }] scenarioSession
    (some "headshot.jpg") "123456-SA" "potato" "QRIN"
    { action := some "potato", sessionId := some "s1", code := some "QRIN",
      expiresAt := some 1770000000000 }
    100 1770000000000 rfl (by decide) (by decide) (by decide) rfl rfl rfl rfl
    (by decide) rfl (by decide) rfl rfl rfl).1

/-- Witness for `roster_gate_and_manual_bypass`: a concrete scan by a student
with an empty roster is rejected with the not-on-roster message. -/
theorem roster_gate_and_manual_bypass_witness :
    P3.submitScan [] [] true (some scenarioSession) "123456-SA" none .scan none none 100 =
      ("That TREC license number is not on the paid roster for this class session.", []) :=
  (roster_gate_and_manual_bypass [] [] scenarioSession "123456-SA" none none none 100
    rfl rfl).1

/-- Witness for `license_gate_and_normalized_keys`: a malformed identifier is
rejected, and a well-formed manual check-in preserves normalized keys. -/
theorem license_gate_and_normalized_keys_witness :
    P3.submitScan [] [] true (some scenarioSession) "BAD" none .scan none none 100 =
      ("Enter full TREC license number like 123456-SA (suffix required: -SA, -B, or -BB).",
       []) ∧
    licenseKeysNormalized
      (App.submitScan [] true true (some scenarioSession) (some "headshot.jpg")
        "123456-SA" none .manual (some "checkin") 100).2 :=
  ⟨(license_gate_and_normalized_keys [] [] scenarioSession (some "headshot.jpg")
      "BAD" none .scan none none true true 100).1 rfl,
   (license_gate_and_normalized_keys [] [] scenarioSession (some "headshot.jpg")
      "123456-SA" none .manual (some "checkin") none true true 100).2.2.2 (by decide)⟩

/-- C2 counterexample: the `App.tsx` variant never compares the payload code
against the session codes — its scan gate checks only presence, windows and
expiry — so a scan whose code `"WRONG"` differs from
`scenarioSession.checkinCode = "QRIN"`, submitted inside the check-in window
at `08:45:00Z`, is not rejected `InvalidCode`: it succeeds, checks the
student in and changes the attendance state. -/
theorem app_wrong_code_accepted :
    App.submitScan [] true true (some scenarioSession) (some "headshot.jpg") "123456-SA"
      (some { action := some "checkin", sessionId := some "s1", code := some "WRONG",
              expiresAt := some 1770000000000 })
      .scan none 1769935500000 =
      ("Checked in. Welcome!", [scanCheckinRecord 1769935500000]) ∧
    ("WRONG" : String) ≠ scenarioSession.checkinCode ∧
    "Checked in. Welcome!" ≠ "Invalid check-in code." :=
  ⟨rfl, by decide, by decide⟩
